import Mathlib

/-!
Verification of the EduQuest quiz-generation pipeline
(`backend/ai_services/services/quiz_generator.py`, class `QuizGenerator`).

Python strings are modelled as `List Char` (one entry per code point, so
Python `len` is `List.length` and slicing is `take`/`drop`).  Python's
whitespace predicates are modelled on their ASCII part, which covers every
string literal occurring in the source.  Library calls that leave the
process (HTTP transports, `json.loads`, the spaCy NLP model,
`random.choice`/`random.shuffle`) are abstracted as explicit parameters:
network transports as outcome values, `json.loads` as an
`Option PyVal` argument (`none` = parse failure), `random.shuffle` as a
function argument constrained to be a permutation where a theorem needs it.
-/

namespace EduQuest

/-- Python `str` as a list of code points. -/
abbrev PyStr := List Char

/-- Convenience: a Lean string literal as a `PyStr`. -/
def pstr (s : String) : PyStr := s.data

/-- ASCII part of Python's `str` whitespace predicate (`str.strip`,
`str.split()`, and the regex class `\s`): space, tab, LF, CR, VT, FF. -/
def pyIsSpace (c : Char) : Bool :=
  c = ' ' || c = '\t' || c = '\n' || c = '\r' || c = Char.ofNat 11 || c = Char.ofNat 12

/-- Python `str.lstrip()`. -/
def pyLStrip (l : PyStr) : PyStr := l.dropWhile pyIsSpace

/-- Python `str.rstrip()`. -/
def pyRStrip (l : PyStr) : PyStr := List.rdropWhile pyIsSpace l

/-- Python `str.strip()`. -/
def pyStrip (l : PyStr) : PyStr := pyRStrip (pyLStrip l)

/-- Python `content.split('\n\n')` (quiz_generator.py line 326): split on
every non-overlapping occurrence of a blank line, keeping empty pieces. -/
def splitOnNlNlAux : List Char → List Char → List (List Char)
  | [], acc => [acc.reverse]
  | '\n' :: '\n' :: rest2, acc => acc.reverse :: splitOnNlNlAux rest2 []
  | c :: rest, acc => splitOnNlNlAux rest (c :: acc)

/-- Paragraph split used by the chunker (`content.split('\n\n')`). -/
def splitParagraphs (l : PyStr) : List PyStr := splitOnNlNlAux l []

/-- A sentence-terminating character for `re.split(r'(?<=[.!?])\s+', ...)`. -/
def isSentencePunct (c : Char) : Bool := c = '.' || c = '!' || c = '?'

/-- Scanner for `re.split(r'(?<=[.!?])\s+', s)` (lines 337, 511, 1228, 1441):
a maximal whitespace run whose immediately preceding character is `.`, `!`
or `?` is a separator.  `acc` holds the current piece reversed; the `Bool`
flag records being inside a separator run (so its remaining whitespace is
consumed without a fresh lookbehind, matching the greedy `\s+`). -/
def reSplitSentencesAux : List Char → List Char → Bool → List (List Char)
  | [], acc, _ => [acc.reverse]
  | c :: rest, acc, true =>
    if pyIsSpace c then reSplitSentencesAux rest acc true
    else reSplitSentencesAux rest (c :: acc) false
  | c :: rest, acc, false =>
    if pyIsSpace c && (match acc with | p :: _ => isSentencePunct p | [] => false) then
      acc.reverse :: reSplitSentencesAux rest [] true
    else reSplitSentencesAux rest (c :: acc) false

/-- `re.split(r'(?<=[.!?])\s+', s)`. -/
def reSplitSentences (l : PyStr) : List PyStr := reSplitSentencesAux l [] false

/-- Python no-argument `str.split()`: whitespace-delimited words, empties
dropped.  (Used only to state "no single word exceeds N" in claim C5.) -/
def pySplitWsAux : List Char → List Char → List (List Char)
  | [], acc => if acc = [] then [] else [acc.reverse]
  | c :: rest, acc =>
    if pyIsSpace c then
      if acc = [] then pySplitWsAux rest [] else acc.reverse :: pySplitWsAux rest []
    else pySplitWsAux rest (c :: acc)

/-- Python `content.split()`. -/
def pySplitWs (l : PyStr) : List (List Char) := pySplitWsAux l []

/-! ## The chunker (`_chunk_content_intelligently`, lines 317-357) -/

/-- Inner sentence loop of `_chunk_content_intelligently` (lines 338-345):
accumulate sentences into `temp` (Python `temp_chunk`), flushing
`temp.strip()` when the next sentence would overflow `maxCS`; every
sentence is appended together with a trailing space. -/
def chunkSentenceLoop (maxCS : Nat) : List PyStr → List PyStr → PyStr →
    List PyStr × PyStr
  | [], chunks, temp => (chunks, temp)
  | s :: rest, chunks, temp =>
    let (chunks, temp) :=
      if maxCS < temp.length + s.length then
        (if temp ≠ [] then chunks ++ [pyStrip temp] else chunks, ([] : PyStr))
      else (chunks, temp)
    chunkSentenceLoop maxCS rest chunks (temp ++ s ++ [' '])

/-- Outer paragraph loop of `_chunk_content_intelligently` (lines 329-352):
`current` is Python's `current_chunk`.  A paragraph that would overflow
flushes `current.strip()`; an oversized paragraph is re-split on sentence
boundaries (there is no further word-level split), otherwise the paragraph
starts or extends `current` (joined by a blank line). -/
def chunkParagraphLoop (maxCS : Nat) : List PyStr → List PyStr → PyStr →
    List PyStr × PyStr
  | [], chunks, current => (chunks, current)
  | p :: rest, chunks, current =>
    if maxCS < current.length + p.length then
      let chunks := if current ≠ [] then chunks ++ [pyStrip current] else chunks
      if maxCS < p.length then
        let (chunks, temp) := chunkSentenceLoop maxCS (reSplitSentences p) chunks []
        chunkParagraphLoop maxCS rest chunks temp
      else
        chunkParagraphLoop maxCS rest chunks p
    else
      chunkParagraphLoop maxCS rest chunks (current ++ p ++ ['\n', '\n'])

/-- `QuizGenerator._chunk_content_intelligently(content, max_chunk_size)`
(lines 317-357). -/
def chunkContentIntelligently (content : PyStr) (maxChunkSize : Nat) : List PyStr :=
  if content.length ≤ maxChunkSize then [content]
  else
    let paragraphs := splitParagraphs content
    let (chunks, current) := chunkParagraphLoop maxChunkSize paragraphs [] []
    let chunks := if current ≠ [] then chunks ++ [pyStrip current] else chunks
    chunks.filter (fun c => pyStrip c ≠ [])

/-! ## Python values and dicts -/

/-- A Python/JSON value as it flows through the generator: strings, the
boolean literals, integers, lists, string-keyed dicts, and `None`. -/
inductive PyVal where
  | str (s : PyStr)
  | bool (b : Bool)
  | int (n : Int)
  | list (xs : List PyVal)
  | dict (fields : List (PyStr × PyVal))
  | none

/-- `d.get(k)` on the field list of a dict: first binding wins (dict updates
below always prepend, so the newest binding is found first). -/
def dGet (fields : List (PyStr × PyVal)) (k : PyStr) : Option PyVal :=
  (fields.find? (fun kv => kv.1 = k)).map (·.2)

/-- `d.get(k, dflt)`. -/
def dGetD (fields : List (PyStr × PyVal)) (k : PyStr) (dflt : PyVal) : PyVal :=
  (dGet fields k).getD dflt

/-- `v.get(k, dflt)` where `v` is known to be a dict (every stub and item in
the pipeline is); on a non-dict the default is returned. -/
def pyGet (v : PyVal) (k : PyStr) (dflt : PyVal) : PyVal :=
  match v with
  | .dict fields => dGetD fields k dflt
  | _ => dflt

/-- `v.get(k)` (default `None`). -/
def pyGetNone (v : PyVal) (k : PyStr) : PyVal := pyGet v k .none

/-- Python truthiness of the modelled values. -/
def pyTruthy : PyVal → Bool
  | .str s => !s.isEmpty
  | .bool b => b
  | .int n => n != 0
  | .list xs => !xs.isEmpty
  | .dict fields => !fields.isEmpty
  | .none => false

/-! ## Generator state and the three backend clients

`QGState` is the mutable per-process state of a `QuizGenerator` instance: the
availability flags probed in `__init__` and the response cache
`self.model_cache`.  A Python cache key is the string
`f"{model}:{hash(prompt[:200])}"` (lines 169, 366, 446); it is modelled as the
pair `(model, prompt.take 200)`, which identifies keys exactly when the
Python keys agree (equal 200-character prefixes give equal `hash` values;
accidental `hash` collisions between distinct prefixes are not modelled). -/

structure QGState where
  fastMode : Bool
  aiModelsAvailable : Bool
  openaiAvailable : Bool
  geminiAvailable : Bool
  useOpenaiFallback : Bool
  cache : List ((PyStr × PyStr) × PyStr)
deriving DecidableEq, Repr

/-- Cache lookup (`cache_key in self.model_cache`). -/
def lookupCache (cache : List ((PyStr × PyStr) × PyStr)) (k : PyStr × PyStr) :
    Option PyStr :=
  (cache.find? (fun kv => kv.1 = k)).map (·.2)

/-- Cache key of `_call_ollama_api` (line 366): `f"{model_name}:{hash(prompt[:200])}"`. -/
def ollamaCacheKey (modelName prompt : PyStr) : PyStr × PyStr :=
  (modelName, prompt.take 200)

/-- Cache key of `_call_openai_api` (line 169): `f"openai:{hash(prompt[:200])}"`. -/
def openaiCacheKey (prompt : PyStr) : PyStr × PyStr :=
  (pstr "openai", prompt.take 200)

/-- Outcome of one attempted Ollama HTTP request, i.e. of
`requests.post(f"{ollama_url}/api/generate", ...)`: a 2xx response whose
JSON `response` field is `body`, a non-200 status, `requests.exceptions.Timeout`,
`requests.exceptions.ConnectionError`, or any other exception. -/
inductive OllamaOutcome where
  | ok (body : PyStr)
  | httpError (code : Nat)
  | timeout
  | connectionError
  | otherError
deriving DecidableEq, Repr

/-- `QuizGenerator._call_ollama_api(model_name, prompt, max_tokens)`
(lines 359-437), as a transition on `QGState`.  Returns the result text,
the successor state and the number of network requests performed (0 or 1).
The tiered `num_ctx`/timeout selection (lines 371-384) only shapes the
request payload and is not needed by any claim. -/
def callOllamaApi (modelName prompt : PyStr) (st : QGState) (net : OllamaOutcome) :
    PyStr × QGState × Nat :=
  if st.aiModelsAvailable = false then ([], st, 0)
  else
    match lookupCache st.cache (ollamaCacheKey modelName prompt) with
    | some cached => (cached, st, 0)
    | Option.none =>
      match net with
      | .ok body =>
        let text := pyStrip body
        (text, { st with cache := (ollamaCacheKey modelName prompt, text) :: st.cache }, 1)
      | .httpError _ => ([], st, 1)
      | .timeout => ([], st, 1)
      | .connectionError => ([], { st with aiModelsAvailable := false }, 1)
      | .otherError => ([], st, 1)

/-- Outcome of one OpenAI / Gemini API request: a successful response whose
normalized text is `body`, or any failure (empty choices, exception). -/
inductive ApiOutcome where
  | ok (body : PyStr)
  | err
deriving DecidableEq, Repr

/-- `QuizGenerator._call_openai_api(prompt, max_tokens, temperature)`
(lines 163-195).  Exceptions (including connection errors) are swallowed
and leave every availability flag unchanged. -/
def callOpenaiApi (prompt : PyStr) (st : QGState) (net : ApiOutcome) :
    PyStr × QGState × Nat :=
  if st.openaiAvailable = false then ([], st, 0)
  else
    match lookupCache st.cache (openaiCacheKey prompt) with
    | some cached => (cached, st, 0)
    | Option.none =>
      match net with
      | .ok body =>
        let text := pyStrip body
        (text, { st with cache := (openaiCacheKey prompt, text) :: st.cache }, 1)
      | .err => ([], st, 1)

/-- `QuizGenerator._call_gemini_api(prompt, max_tokens, temperature)`
(lines 98-114).  Note: no cache is consulted or written. -/
def callGeminiApi (prompt : PyStr) (st : QGState) (net : ApiOutcome) :
    PyStr × QGState × Nat :=
  if st.geminiAvailable = false then ([], st, 0)
  else
    match net with
    | .ok body => (pyStrip body, st, 1)
    | .err => ([], st, 1)

/-- One backend invocation, for stating run-long (trace) properties. -/
inductive BackendOp where
  | ollama (modelName prompt : PyStr) (net : OllamaOutcome)
  | openai (prompt : PyStr) (net : ApiOutcome)
  | gemini (prompt : PyStr) (net : ApiOutcome)

/-- State effect of one backend invocation. -/
def applyOp (st : QGState) : BackendOp → QGState
  | .ollama m p net => (callOllamaApi m p st net).2.1
  | .openai p net => (callOpenaiApi p st net).2.1
  | .gemini p net => (callGeminiApi p st net).2.1

/-- State after a sequence of backend invocations. -/
def runOps (st : QGState) (ops : List BackendOp) : QGState :=
  ops.foldl applyOp st

/-! ## Per-question-type option handlers (section 4.4 of the spec)

The handlers receive the backend's raw response only through the result of
the `json.loads` attempt the source performs on it (after the
`find('{')`/`rfind('}')` or `find('[')`/`rfind(']')` splice where the source
splices): an `Option PyVal` argument, `none` meaning no bracket pair was
found or `json.JSONDecodeError` was raised. -/

/-- Python `.strip('"\' ')` (lines 1013, 1053): strip double quote, single
quote and space from both ends. -/
def isQuoteSpace (c : Char) : Bool := c = '"' || c = '\'' || c = ' '

/-- `response.strip('"\' ')`. -/
def stripQuoteSpace (l : PyStr) : PyStr :=
  ((l.dropWhile isQuoteSpace).reverse.dropWhile isQuoteSpace).reverse

/-- The hard-coded true/false item used as final fallback both by
`_handle_true_false_with_model_b` (lines 1102-1109) and by the `true_false`
branch of `_generate_fallback_options` (lines 959-967): the correct answer
is the constant `True`. -/
def tfFallbackItem (question difficulty : PyStr) : PyVal :=
  .dict [(pstr "question", .str question),
         (pstr "options", .list [.bool true, .bool false]),
         (pstr "correct_answer", .bool true),
         (pstr "explanation", .str (pstr "Based on the reference text.")),
         (pstr "type", .str (pstr "true_false")),
         (pstr "difficulty", .str difficulty)]

/-- The `correct_answer` binding of a parsed true/false backend response,
when the response parsed to a dict carrying that key. -/
def tfParsedAnswer (parsed : Option PyVal) : Option PyVal :=
  match parsed with
  | some (.dict fields) => dGet fields (pstr "correct_answer")
  | _ => Option.none

/-- `QuizGenerator._handle_true_false_with_model_b(question, reference_text,
difficulty)` (lines 1069-1109), given the parse of the Ollama response
(`json.loads(response)`, no splice here).  The parsed `correct_answer`
value is copied into the item verbatim — there is no check that it is a
boolean.  On a non-dict result or a missing key the hard-coded fallback
item (answer `True`) is returned; the next backend is NOT tried. -/
def handleTrueFalseWithModelB (question refText difficulty : PyStr)
    (parsed : Option PyVal) : PyVal :=
  match parsed with
  | some (.dict fields) =>
    match dGet fields (pstr "correct_answer") with
    | some ca =>
      .dict [(pstr "question", .str question),
             (pstr "options", .list [.bool true, .bool false]),
             (pstr "correct_answer", ca),
             (pstr "explanation",
               dGetD fields (pstr "explanation") (.str (pstr "Based on the reference text."))),
             (pstr "type", .str (pstr "true_false")),
             (pstr "difficulty", .str difficulty)]
    | Option.none => tfFallbackItem question difficulty
  | _ => tfFallbackItem question difficulty

/-- `QuizGenerator._handle_true_false_with_openai(...)` (lines 854-885),
given the parse of the spliced OpenAI response.  When `correct_answer` is
present the parsed dict is returned VERBATIM (its `options` are whatever
the model sent, or absent); otherwise `{}` is returned, which the caller
treats as failure (next path tried). -/
def handleTrueFalseWithOpenai (parsed : Option PyVal) : PyVal :=
  match parsed with
  | some (.dict fields) =>
    if (dGet fields (pstr "correct_answer")).isSome then .dict fields else .dict []
  | _ => .dict []

/-- `QuizGenerator._handle_multiple_choice_with_openai(...)` (lines 816-852),
given the parse of the spliced OpenAI response: if the parse is a dict
containing the keys `question`, `options` and `correct_answer` it is
returned VERBATIM — no check that `correct_answer ∈ options` or that
`len(options) == 4`; otherwise `{}`. -/
def handleMultipleChoiceWithOpenai (parsed : Option PyVal) : PyVal :=
  match parsed with
  | some (.dict fields) =>
    if (dGet fields (pstr "question")).isSome &&
       (dGet fields (pstr "options")).isSome &&
       (dGet fields (pstr "correct_answer")).isSome
    then .dict fields else .dict []
  | _ => .dict []

/-- The `while len(distractors) < 3` padding loop of
`_generate_fallback_multiple_choice` (lines 1375-1376), unrolled (its input
has at most 3 entries). -/
def padDistractors (l : List PyStr) : List PyStr :=
  match l.length with
  | 0 => l ++ [pstr "Incorrect option 1", pstr "Incorrect option 2", pstr "Incorrect option 3"]
  | 1 => l ++ [pstr "Incorrect option 2", pstr "Incorrect option 3"]
  | 2 => l ++ [pstr "Incorrect option 3"]
  | _ => l

/-- `QuizGenerator._generate_fallback_multiple_choice(question,
reference_text, difficulty)` (lines 1360-1388).  `terms` abstracts the
salient terms extracted from `reference_text` (spaCy POS filtering when
`self.nlp` is loaded, else the regex `\b[A-Za-z]+\b`); `shuffle` abstracts
`random.shuffle`. -/
def generateFallbackMultipleChoice (question refText difficulty : PyStr)
    (terms : List PyStr) (shuffle : List PyVal → List PyVal) : PyVal :=
  let correctAnswer : PyStr :=
    if 50 < refText.length then refText.take 50 ++ pstr "..." else refText
  let distractors := (terms.take 3).map (fun t => pstr "Something related to " ++ t)
  let distractors := padDistractors distractors
  let options := shuffle (.str correctAnswer :: (distractors.take 3).map .str)
  .dict [(pstr "question", .str question),
         (pstr "options", .list options),
         (pstr "correct_answer", .str correctAnswer),
         (pstr "explanation", .str (pstr "Based on the reference text.")),
         (pstr "type", .str (pstr "multiple_choice")),
         (pstr "difficulty", .str difficulty)]

/-- `QuizGenerator._handle_multiple_choice_with_model_b(question,
reference_text, difficulty)` (lines 1001-1067).  `directResp` and
`explanationResp` are the raw Ollama responses for the answer and
explanation prompts; `distractorParsed` is the parse of the spliced
distractor response.  Any failure (empty direct answer, no JSON array,
non-list parse, fewer than 3 distractors) short-circuits to the
deterministic fallback. -/
def handleMultipleChoiceWithModelB (question refText difficulty : PyStr)
    (directResp : PyStr) (distractorParsed : Option PyVal) (explanationResp : PyStr)
    (terms : List PyStr) (shuffle : List PyVal → List PyVal) : PyVal :=
  let directAnswer := stripQuoteSpace directResp
  if directAnswer = [] then
    generateFallbackMultipleChoice question refText difficulty terms shuffle
  else
    match distractorParsed with
    | some (.list distractors) =>
      if distractors.length < 3 then
        generateFallbackMultipleChoice question refText difficulty terms shuffle
      else
        let options := shuffle (.str directAnswer :: distractors.take 3)
        let explanation := stripQuoteSpace explanationResp
        .dict [(pstr "question", .str question),
               (pstr "options", .list options),
               (pstr "correct_answer", .str directAnswer),
               (pstr "explanation",
                 .str (if explanation = [] then pstr "Based on the reference text." else explanation)),
               (pstr "type", .str (pstr "multiple_choice")),
               (pstr "difficulty", .str difficulty),
               (pstr "reference_text", .str refText)]
    | _ => generateFallbackMultipleChoice question refText difficulty terms shuffle

/-- `QuizGenerator._generate_fallback_options(question, reference_text,
question_type, difficulty)` (lines 954-999).  `pick` abstracts
`random.choice` over the non-empty candidate list of the `fill_blank`
branch; `terms`/`shuffle` as in the multiple-choice fallback.
`pyReplaceFirst` below models `str.replace(old, new, 1)`. -/
def pyReplaceFirstAux (old new : PyStr) : List Char → List Char
  | [] => []
  | c :: rest =>
    if (c :: rest).take old.length = old ∧ old ≠ [] then
      new ++ (c :: rest).drop old.length
    else c :: pyReplaceFirstAux old new rest

/-- Python `s.replace(old, new, 1)`. -/
def pyReplaceFirst (s old new : PyStr) : PyStr := pyReplaceFirstAux old new s

/-- Python `str.isalpha()` (ASCII part). -/
def pyIsAlphaStr (w : PyStr) : Bool := !w.isEmpty && w.all Char.isAlpha

/-- `_generate_fallback_options` (lines 954-999). -/
def generateFallbackOptions (question refText qtype difficulty : PyStr)
    (pick : List PyStr → PyStr) (terms : List PyStr)
    (shuffle : List PyVal → List PyVal) : PyVal :=
  if qtype = pstr "multiple_choice" then
    generateFallbackMultipleChoice question refText difficulty terms shuffle
  else if qtype = pstr "true_false" then
    tfFallbackItem question difficulty
  else if qtype = pstr "fill_blank" then
    let words := if refText ≠ [] then pySplitWs refText else pySplitWs question
    let (answer, questionText) :=
      if 3 < words.length then
        let meaningfulWords := words.filter (fun w => 3 < w.length && pyIsAlphaStr w)
        if meaningfulWords ≠ [] then
          let answer := pick meaningfulWords
          (answer,
           if refText ≠ [] then pyReplaceFirst refText answer (pstr "_____")
           else pstr "Fill in the blank: _____ is important.")
        else (pstr "answer", pstr "Fill in the blank: The _____ is important.")
      else (pstr "answer", pstr "Fill in the blank: The _____ is important.")
    .dict [(pstr "question", .str questionText),
           (pstr "options", .list []),
           (pstr "correct_answer", .str answer),
           (pstr "explanation", .str (pstr "Based on the reference text.")),
           (pstr "type", .str (pstr "fill_blank")),
           (pstr "difficulty", .str difficulty)]
  else
    .dict [(pstr "question", .str question),
           (pstr "options", .list []),
           (pstr "correct_answer",
             .str (if refText ≠ [] then refText.take 100 else pstr "See reference material")),
           (pstr "type", .str (pstr "short_answer")),
           (pstr "difficulty", .str difficulty)]

/-! ## Question generation (`_generate_questions_with_model_a`) and
`generate_quiz` -/

/-- `QuizGenerator._generate_questions_with_model_a(content, num_questions,
difficulty, question_types)` (lines 642-678).  The four stub-list arguments
abstract, in order, the values of `self._generate_fallback_questions(...)`,
`self._try_ollama_question_generation(...)`,
`self._try_openai_question_generation(...)` and
`self._try_gemini_question_generation(...)` for these inputs (each `_try_*`
helper returns `[]` on any failure).  The Python function has NO `return`
statement after the Gemini branch: when fast mode is off and every branch
is skipped or returns an empty list, it falls off the end and returns
`None` — it never invokes `_generate_fallback_questions` on that path,
although line 678 prints "using NLP fallback...". -/
def generateQuestionsWithModelA (st : QGState)
    (fallbackStubs ollamaStubs openaiStubs geminiStubs : List PyVal) :
    Option (List PyVal) :=
  if st.fastMode then some fallbackStubs
  else if st.aiModelsAvailable && !ollamaStubs.isEmpty then some ollamaStubs
  else if st.openaiAvailable && !openaiStubs.isEmpty then some openaiStubs
  else if st.geminiAvailable && !geminiStubs.isEmpty then some geminiStubs
  else Option.none

/-- A Python exception escaping `generate_quiz`. -/
inductive PyErr where
  | typeError   -- iterating over the `None` returned by `_generate_questions_with_model_a`
  | uncaught    -- an exception raised outside any try/except of `generate_quiz`
deriving DecidableEq, Repr

/-- External collaborators of `generate_quiz`, abstracted: the stub lists
the `_generate_questions_with_model_a` branches would produce for a given
(content, count), the result of `_generate_options_with_model_b(question,
reference_text, question_type, difficulty)` per stub (`Option.none` models
that call raising an exception, which the chunk loop catches at lines
581-593 and the later loops do not), and the stubs of
`_create_basic_questions`. -/
structure QuizEnv where
  fallbackStubs : PyStr → Nat → List PyVal
  ollamaStubs : PyStr → Nat → List PyVal
  openaiStubs : PyStr → Nat → List PyVal
  geminiStubs : PyStr → Nat → List PyVal
  optionsB : PyVal → PyVal → PyVal → PyVal → Option PyVal
  basicStubs : PyStr → Nat → List PyVal

/-- The call `self._generate_questions_with_model_a(content, n, ...)` made
from `generate_quiz`, with the branch results supplied by the environment. -/
def modelAFor (env : QuizEnv) (st : QGState) (content : PyStr) (n : Nat) :
    Option (List PyVal) :=
  generateQuestionsWithModelA st (env.fallbackStubs content n)
    (env.ollamaStubs content n) (env.openaiStubs content n) (env.geminiStubs content n)

/-- The basic fallback question built inline in the `except` arm of the
chunk loop (lines 584-591). -/
def inlineFallbackItem (qd : PyVal) (difficulty : PyStr) : PyVal :=
  let qtype := pyGetNone qd (pstr "type")
  let isFreeForm := match qtype with
    | .str s => s == pstr "short_answer" || s == pstr "fill_blank"
    | _ => false
  let isShortAnswer := match qtype with
    | .str s => s == pstr "short_answer"
    | _ => false
  .dict [(pstr "question", pyGet qd (pstr "question") (.str (pstr "What is the main topic?"))),
         (pstr "options",
           if isFreeForm then .list []
           else .list [.str (pstr "Option A"), .str (pstr "Option B"),
                       .str (pstr "Option C"), .str (pstr "Option D")]),
         (pstr "correct_answer",
           if isShortAnswer then .str (pstr "Based on the content")
           else .str (pstr "Option A")),
         (pstr "explanation", .str (pstr "This answer is based on the provided content.")),
         (pstr "type", pyGet qd (pstr "type") (.str (pstr "multiple_choice"))),
         (pstr "difficulty", .str difficulty)]

/-- Inner per-stub loop of `generate_quiz` (lines 562-593): complete each
stub via `_generate_options_with_model_b`, keep results with a truthy
`question` field, fall back to `inlineFallbackItem` when the completion
raises, stop once `remaining` hits 0. -/
def processChunkStubs (env : QuizEnv) (difficulty : PyStr) :
    List PyVal → List PyVal → Nat → List PyVal × Nat
  | [], acc, remaining => (acc, remaining)
  | qd :: rest, acc, remaining =>
    if remaining = 0 then (acc, remaining)
    else
      match env.optionsB (pyGet qd (pstr "question") (.str []))
          (pyGet qd (pstr "reference_text") (.str []))
          (pyGet qd (pstr "type") (.str (pstr "multiple_choice")))
          (pyGet qd (pstr "difficulty") (.str difficulty)) with
      | some qwo =>
        if pyTruthy qwo && pyTruthy (pyGetNone qwo (pstr "question")) then
          processChunkStubs env difficulty rest (acc ++ [qwo]) (remaining - 1)
        else
          processChunkStubs env difficulty rest acc remaining
      | Option.none =>
        processChunkStubs env difficulty rest (acc ++ [inlineFallbackItem qd difficulty])
          (remaining - 1)

/-- Outer chunk loop of `generate_quiz` (lines 546-593).  `i` is the chunk
index, `k` the total chunk count; iterating over chunk stubs fails with
`TypeError` when `_generate_questions_with_model_a` returned `None`. -/
def quizChunkLoop (env : QuizEnv) (st : QGState) (difficulty : PyStr) (qpc k : Nat) :
    List PyStr → Nat → List PyVal → Nat → Except PyErr (List PyVal × Nat)
  | [], _, acc, remaining => .ok (acc, remaining)
  | ch :: rest, i, acc, remaining =>
    if remaining = 0 then .ok (acc, remaining)
    else
      let chunkQuestions := if i = k - 1 then remaining else min qpc remaining
      match modelAFor env st ch chunkQuestions with
      | Option.none => .error .typeError
      | some stubs =>
        let (acc, remaining) := processChunkStubs env difficulty stubs acc remaining
        quizChunkLoop env st difficulty qpc k rest (i + 1) acc remaining

/-- The "additional questions" loop (lines 602-609): options are completed
for every stub and appended without validation; an exception here is not
caught. -/
def appendAdditional (env : QuizEnv) (difficulty : PyStr) :
    List PyVal → List PyVal → Except PyErr (List PyVal)
  | [], acc => .ok acc
  | qd :: rest, acc =>
    match env.optionsB (pyGet qd (pstr "question") (.str []))
        (pyGet qd (pstr "reference_text") (.str []))
        (pyGet qd (pstr "type") (.str (pstr "multiple_choice")))
        (pyGet qd (pstr "difficulty") (.str difficulty)) with
    | some qwo => appendAdditional env difficulty rest (acc ++ [qwo])
    | Option.none => .error .uncaught

/-- The basic-questions fill loop (lines 619-626); note the difficulty is
passed positionally, not read from the stub. -/
def appendBasic (env : QuizEnv) (difficulty : PyStr) :
    List PyVal → List PyVal → Except PyErr (List PyVal)
  | [], acc => .ok acc
  | bq :: rest, acc =>
    match env.optionsB (pyGet bq (pstr "question") (.str []))
        (pyGet bq (pstr "reference_text") (.str []))
        (pyGet bq (pstr "type") (.str (pstr "multiple_choice")))
        (.str difficulty) with
    | some qwo => appendBasic env difficulty rest (acc ++ [qwo])
    | Option.none => .error .uncaught

/-- Per-item score of `_estimate_difficulty` (lines 1426-1437):
`{"easy":1,"medium":2,"hard":3}.get(q.get("difficulty","medium"), 2)`. -/
def difficultyScore (q : PyVal) : Nat :=
  match pyGet q (pstr "difficulty") (.str (pstr "medium")) with
  | .str d => if d = pstr "easy" then 1 else if d = pstr "medium" then 2
              else if d = pstr "hard" then 3 else 2
  | _ => 2

/-- `QuizGenerator._estimate_difficulty(questions)` (lines 1426-1437).  The
float average `total/len` compared against 1.5 and 2.5 is rendered as the
exact integer comparisons `2*total < 3*len` and `2*total < 5*len`. -/
def estimateDifficulty (questions : List PyVal) : PyStr :=
  let total := (questions.map difficultyScore).sum
  if questions.length = 0 then pstr "medium"
  else if 2 * total < 3 * questions.length then pstr "easy"
  else if 2 * total < 5 * questions.length then pstr "medium"
  else pstr "hard"

/-- The empty-content result of `generate_quiz` (lines 524-535). -/
def emptyQuizResult (difficulty : PyStr) (questionTypes : List PyStr) : PyVal :=
  .dict [(pstr "questions", .list []),
         (pstr "metadata", .dict [
           (pstr "total_questions", .int 0),
           (pstr "difficulty", .str difficulty),
           (pstr "question_types", .list (questionTypes.map .str)),
           (pstr "generation_method", .str (pstr "error")),
           (pstr "ai_models_used", .bool false),
           (pstr "error", .str (pstr "No content provided"))])]

/-- `QuizGenerator.generate_quiz(content, num_questions, difficulty,
question_types)` (lines 517-640).  Empty or whitespace-only content is
rejected up front with the error result and no backend interaction;
otherwise the content is chunked with `max_chunk_size=3000` and processed
chunk by chunk.  (With no sentence in the content `_estimate_difficulty`'s
`avg_score` default 2 applies through the `length = 0` guard.) -/
def generateQuiz (env : QuizEnv) (st : QGState) (content : PyStr)
    (numQuestions : Nat) (difficulty : PyStr) (questionTypes : List PyStr) :
    Except PyErr PyVal :=
  if pyStrip content = [] then .ok (emptyQuizResult difficulty questionTypes)
  else
    let chunks := chunkContentIntelligently content 3000
    let qpc := max 1 (numQuestions / chunks.length)
    match quizChunkLoop env st difficulty qpc chunks.length chunks 0 [] numQuestions with
    | .error e => .error e
    | .ok (allQuestions, remaining) =>
      let afterAdditional : Except PyErr (List PyVal) :=
        if 0 < remaining then
          match modelAFor env st (content.take 2000) remaining with
          | Option.none => .error .typeError
          | some adds => appendAdditional env difficulty adds allQuestions
        else .ok allQuestions
      match afterAdditional with
      | .error e => .error e
      | .ok allQuestions =>
        let allQuestions := allQuestions.take numQuestions
        let final : Except PyErr (List PyVal) :=
          if allQuestions.length < numQuestions then
            appendBasic env difficulty
              (env.basicStubs content (numQuestions - allQuestions.length)) allQuestions
          else .ok allQuestions
        match final with
        | .error e => .error e
        | .ok allQuestions =>
          .ok (.dict [(pstr "questions", .list allQuestions),
            (pstr "metadata", .dict [
              (pstr "total_questions", .int allQuestions.length),
              (pstr "difficulty", .str (estimateDifficulty allQuestions)),
              (pstr "question_types", .list (questionTypes.map .str)),
              (pstr "generation_method",
                .str (if st.aiModelsAvailable || st.openaiAvailable then pstr "ai"
                      else pstr "nlp_fallback")),
              (pstr "ai_models_used", .bool st.aiModelsAvailable),
              (pstr "openai_used", .bool (st.openaiAvailable && st.useOpenaiFallback)),
              (pstr "content_chunks_processed", .int chunks.length),
              (pstr "fast_mode", .bool st.fastMode)])])

/-! ## The per-chunk request counts (claim C8) -/

/-- The sequence of `chunk_questions` values requested by the chunk loop of
`generate_quiz` (lines 541-553) when every chunk fulfils its request:
`questions_per_chunk = max(1, num_questions // len(chunks))` (integer
floor division), each non-last chunk requests
`min(questions_per_chunk, remaining)`, the last chunk requests all of
`remaining`, and the loop stops when `remaining` reaches 0. -/
def chunkRequestsGo (qpc : Nat) : Nat → Nat → List Nat
  | 0, _ => []
  | _ + 1, 0 => []
  | 1, r + 1 => [r + 1]
  | c + 2, r + 1 => min qpc (r + 1) :: chunkRequestsGo qpc (c + 1) (r + 1 - min qpc (r + 1))

/-- Requests issued for `n` questions over `k` chunks. -/
def chunkRequests (n k : Nat) : List Nat := chunkRequestsGo (max 1 (n / k)) k n

/-- Ceiling division, as in the spec's "`ceil(requested/chunkCount)`". -/
def ceilDiv (a b : Nat) : Nat := (a + b - 1) / b

/-- The request schedule described by the spec sentence for claim C8:
every chunk is asked for `ceil(n/k)` stubs, except the last, which absorbs
the remainder so the total is `n`. -/
def specChunkRequests (n k : Nat) : List Nat :=
  List.replicate (k - 1) (ceilDiv n k) ++ [n - (k - 1) * ceilDiv n k]

/-! ## Shared concrete states and environments -/

/-- Every availability flag down and fast mode off — the state of a default
`QuizGenerator` on a machine with no Ollama server and no API keys. -/
def stAllDown : QGState :=
  { fastMode := false, aiModelsAvailable := false, openaiAvailable := false,
    geminiAvailable := false, useOpenaiFallback := true, cache := [] }

/-- Every backend available, empty cache. -/
def stAllUp : QGState :=
  { fastMode := false, aiModelsAvailable := true, openaiAvailable := true,
    geminiAvailable := true, useOpenaiFallback := true, cache := [] }

/-- The default `question_types` of `generate_quiz` (lines 521-522). -/
def defaultQuestionTypes : List PyStr :=
  [pstr "multiple_choice", pstr "true_false", pstr "fill_blank", pstr "short_answer"]

/-- Environment in which every `_try_*` helper fails (returns `[]`), the
deterministic fallback yields one stub, and option completion returns an
empty dict: the setting of claims C1/C2. -/
def envNoBackends : QuizEnv :=
  { fallbackStubs := fun _ _ =>
      [.dict [(pstr "question", .str (pstr "What is stated?")),
              (pstr "type", .str (pstr "short_answer")),
              (pstr "reference_text", .str (pstr "Some text.")),
              (pstr "difficulty", .str (pstr "medium"))]],
    ollamaStubs := fun _ _ => [], openaiStubs := fun _ _ => [],
    geminiStubs := fun _ _ => [],
    optionsB := fun _ _ _ _ => some (.dict []),
    basicStubs := fun _ _ => [] }

/-- Is the value one of Python's boolean literals? -/
def isBoolVal : PyVal → Bool
  | .bool _ => true
  | _ => false

/-! ## Claim C2 -/

/-- C2: the claim says that whenever every AI backend is unavailable or
fails, `_generate_questions_with_model_a` invokes the rule-based fallback
generator and returns its non-`None` list.  The code instead falls off the
end of the function and returns `None` (there is no statement after the
Gemini branch), even though the deterministic fallback (modelled here by a
non-empty first argument) is implemented and would succeed. -/
theorem modelA_returns_none_when_all_backends_down :
    generateQuestionsWithModelA stAllDown
      [.dict [(pstr "question", .str (pstr "What is stated?"))]] [] [] [] =
      Option.none := rfl

/-! ## Claim C1 -/

/-- C1: the claim says `generate_quiz` never raises and returns exactly
`num_questions` items for non-empty content.  With fast mode off and all
three backends unavailable (the default state when no backend is
reachable), `generate_quiz` instead raises `TypeError`: the chunk loop
iterates over the `None` returned by `_generate_questions_with_model_a`.
The empty-content half of the claim does hold: whitespace-only content is
rejected up front with zero questions and the explicit error metadata. -/
theorem generate_quiz_raises_when_all_backends_down :
    generateQuiz envNoBackends stAllDown
        (pstr "This is a test sentence about science.") 1 (pstr "medium")
        defaultQuestionTypes = .error .typeError ∧
    generateQuiz envNoBackends stAllDown (pstr " ") 3 (pstr "medium")
        defaultQuestionTypes =
      .ok (emptyQuizResult (pstr "medium") defaultQuestionTypes) :=
  ⟨rfl, rfl⟩

/-! ## Claim C8 -/

/-- Sum of the requests issued over `c + 1` chunks for `r` questions. -/
theorem chunkRequestsGo_sum (qpc : Nat) :
    ∀ c r, (chunkRequestsGo qpc (c + 1) r).sum = r := by
  intro c
  induction c with
  | zero =>
    intro r
    cases r <;> simp [chunkRequestsGo]
  | succ c ih =>
    intro r
    cases r with
    | zero => simp [chunkRequestsGo]
    | succ r =>
      have h := ih (r + 1 - min qpc (r + 1))
      simp only [chunkRequestsGo, List.sum_cons, h]
      omega

/-- C8 counterexample: for 5 requested questions over 2 chunks the code
requests `max(1, 5 // 2) = 2` stubs from the first chunk, not
`ceil(5/2) = 3` as the claim states. -/
theorem chunk_requests_differ_from_spec_ceil :
    chunkRequests 5 2 = [2, 3] ∧ specChunkRequests 5 2 = [3, 2] ∧
    chunkRequests 5 2 ≠ specChunkRequests 5 2 := by decide

/-- C8 (amended): each non-last chunk is asked for
`min(max(1, n // k), remaining)` stubs — integer FLOOR division, not
ceiling — the last chunk absorbs the remainder, and (assuming each chunk
fulfils its request, which is what the remaining-counter tracks) the
per-chunk requests sum to exactly `n`. -/
theorem chunk_requests_sum_eq_requested (n k : Nat) (hk : 1 ≤ k) :
    (chunkRequests n k).sum = n := by
  obtain ⟨c, rfl⟩ := Nat.exists_eq_add_of_le hk
  simpa [chunkRequests, Nat.add_comm] using
    chunkRequestsGo_sum (max 1 (n / (1 + c))) c n

/-- Witness for C8's amended theorem at `n = 5`, `k = 2`. -/
theorem chunk_requests_sum_witness : 1 ≤ 2 ∧ (chunkRequests 5 2).sum = 5 :=
  ⟨by decide, chunk_requests_sum_eq_requested 5 2 (by decide)⟩

/-! ## Claim C6 -/

/-- C6 counterexample: `_call_gemini_api` has no cache, so two invocations
with an identical prompt perform two network calls, not one — the claimed
idempotence does not hold "uniformly for all three backend clients". -/
theorem gemini_identical_prompts_two_network_calls :
    (callGeminiApi (pstr "prompt") stAllUp (.ok (pstr "reply"))).2.2 +
      (callGeminiApi (pstr "prompt")
        (callGeminiApi (pstr "prompt") stAllUp (.ok (pstr "reply"))).2.1
        (.ok (pstr "reply"))).2.2 = 2 ∧ (2 : Nat) ≠ 1 := by
  exact ⟨rfl, by decide⟩

/-- C6 (amended): for the Ollama and OpenAI clients the claim holds — a
successful first call writes the response into the cache before returning
it, and a second invocation with an identical prompt is answered from the
cache with no network request, so the pair performs exactly one network
call and both calls return the same text.  The Gemini client has no cache
and performs one network call per invocation. -/
theorem cache_idempotence_ollama_openai :
    (∀ (st : QGState) (m p body : PyStr) (out2 : OllamaOutcome),
      st.aiModelsAvailable = true →
      lookupCache st.cache (ollamaCacheKey m p) = Option.none →
      (callOllamaApi m p st (.ok body)).2.2 +
        (callOllamaApi m p (callOllamaApi m p st (.ok body)).2.1 out2).2.2 = 1 ∧
      (callOllamaApi m p (callOllamaApi m p st (.ok body)).2.1 out2).1 =
        (callOllamaApi m p st (.ok body)).1) ∧
    (∀ (st : QGState) (p body : PyStr) (out2 : ApiOutcome),
      st.openaiAvailable = true →
      lookupCache st.cache (openaiCacheKey p) = Option.none →
      (callOpenaiApi p st (.ok body)).2.2 +
        (callOpenaiApi p (callOpenaiApi p st (.ok body)).2.1 out2).2.2 = 1 ∧
      (callOpenaiApi p (callOpenaiApi p st (.ok body)).2.1 out2).1 =
        (callOpenaiApi p st (.ok body)).1) := by
  constructor
  · intro st m p body out2 hai hc
    have h1 : callOllamaApi m p st (.ok body) =
        (pyStrip body,
         { st with cache := (ollamaCacheKey m p, pyStrip body) :: st.cache }, 1) := by
      simp [callOllamaApi, hai, hc]
    have h2 : lookupCache ((ollamaCacheKey m p, pyStrip body) :: st.cache)
        (ollamaCacheKey m p) = some (pyStrip body) := by
      simp [lookupCache, List.find?]
    rw [h1]
    simp [callOllamaApi, hai, h2]
  · intro st p body out2 hoa hc
    have h1 : callOpenaiApi p st (.ok body) =
        (pyStrip body,
         { st with cache := (openaiCacheKey p, pyStrip body) :: st.cache }, 1) := by
      simp [callOpenaiApi, hoa, hc]
    have h2 : lookupCache ((openaiCacheKey p, pyStrip body) :: st.cache)
        (openaiCacheKey p) = some (pyStrip body) := by
      simp [lookupCache, List.find?]
    rw [h1]
    simp [callOpenaiApi, hoa, h2]

/-- Witness for C6's amended theorem: one concrete Ollama pair and one
concrete OpenAI pair, each totalling one network call. -/
theorem cache_idempotence_witness :
    stAllUp.aiModelsAvailable = true ∧
    lookupCache stAllUp.cache (ollamaCacheKey (pstr "mistral") (pstr "p")) = Option.none ∧
    (callOllamaApi (pstr "mistral") (pstr "p") stAllUp (.ok (pstr "r"))).2.2 +
      (callOllamaApi (pstr "mistral") (pstr "p")
        (callOllamaApi (pstr "mistral") (pstr "p") stAllUp (.ok (pstr "r"))).2.1
        .timeout).2.2 = 1 :=
  ⟨rfl, rfl,
    (cache_idempotence_ollama_openai.1 stAllUp (pstr "mistral") (pstr "p") (pstr "r")
      .timeout rfl rfl).1⟩

/-! ## Claim C7 -/

/-- `_call_openai_api` never writes the Ollama availability flag. -/
theorem callOpenaiApi_preserves_ai (p : PyStr) (st : QGState) (net : ApiOutcome) :
    (callOpenaiApi p st net).2.1.aiModelsAvailable = st.aiModelsAvailable := by
  cases h : st.openaiAvailable <;>
    simp [callOpenaiApi, h] <;>
    cases hc : lookupCache st.cache (openaiCacheKey p) <;>
    cases net <;> simp [hc]

/-- `_call_gemini_api` never writes the Ollama availability flag. -/
theorem callGeminiApi_preserves_ai (p : PyStr) (st : QGState) (net : ApiOutcome) :
    (callGeminiApi p st net).2.1.aiModelsAvailable = st.aiModelsAvailable := by
  cases h : st.geminiAvailable <;> cases net <;> simp [callGeminiApi, h]

/-- Once `ai_models_available` is `False`, no modelled backend call sets it
back to `True` (`_call_ollama_api` returns immediately; the OpenAI and
Gemini clients never touch the flag). -/
theorem applyOp_preserves_ai_down (st : QGState) (op : BackendOp)
    (h : st.aiModelsAvailable = false) :
    (applyOp st op).aiModelsAvailable = false := by
  cases op with
  | ollama m p net => simp [applyOp, callOllamaApi, h]
  | openai p net => simpa [applyOp, callOpenaiApi_preserves_ai] using h
  | gemini p net => simpa [applyOp, callGeminiApi_preserves_ai] using h

/-- C7: a `requests.exceptions.Timeout` in `_call_ollama_api` leaves
`ai_models_available` unchanged (lines 426-429); a
`requests.exceptions.ConnectionError` on an actually-attempted call sets
it to `False` (lines 430-434); and once `False` it stays `False` for every
subsequent sequence of backend invocations — only `__init__`'s
availability probe, which runs before the pipeline, ever sets it. -/
theorem timeout_transient_connection_error_permanent :
    (∀ (st : QGState) (m p : PyStr),
      (callOllamaApi m p st .timeout).2.1.aiModelsAvailable = st.aiModelsAvailable) ∧
    (∀ (st : QGState) (m p : PyStr),
      st.aiModelsAvailable = true →
      lookupCache st.cache (ollamaCacheKey m p) = Option.none →
      (callOllamaApi m p st .connectionError).2.1.aiModelsAvailable = false) ∧
    (∀ (st : QGState) (ops : List BackendOp),
      st.aiModelsAvailable = false → (runOps st ops).aiModelsAvailable = false) := by
  refine ⟨?_, ?_, ?_⟩
  · intro st m p
    cases hai : st.aiModelsAvailable
    · simp [callOllamaApi, hai]
    · cases hc : lookupCache st.cache (ollamaCacheKey m p) <;>
        simp [callOllamaApi, hai, hc]
  · intro st m p hai hc
    simp [callOllamaApi, hai, hc]
  · intro st ops
    induction ops generalizing st with
    | nil => intro h; simpa [runOps] using h
    | cons op rest ih =>
      intro h
      have h2 := applyOp_preserves_ai_down st op h
      simpa [runOps] using ih (applyOp st op) h2

/-- Witness for C7 at concrete inputs: a timeout leaves the flag up, a
connection error takes it down, and it stays down across a later
successful-looking call. -/
theorem timeout_transient_witness :
    stAllUp.aiModelsAvailable = true ∧
    lookupCache stAllUp.cache (ollamaCacheKey (pstr "m") (pstr "p")) = Option.none ∧
    (callOllamaApi (pstr "m") (pstr "p") stAllUp .timeout).2.1.aiModelsAvailable =
      stAllUp.aiModelsAvailable ∧
    (callOllamaApi (pstr "m") (pstr "p") stAllUp .connectionError).2.1.aiModelsAvailable =
      false ∧
    stAllDown.aiModelsAvailable = false ∧
    (runOps stAllDown [.ollama (pstr "m") (pstr "p") (.ok (pstr "r"))]).aiModelsAvailable =
      false :=
  ⟨rfl, rfl,
    timeout_transient_connection_error_permanent.1 stAllUp (pstr "m") (pstr "p"),
    timeout_transient_connection_error_permanent.2.1 stAllUp (pstr "m") (pstr "p") rfl rfl,
    rfl,
    timeout_transient_connection_error_permanent.2.2 stAllDown
      [.ollama (pstr "m") (pstr "p") (.ok (pstr "r"))] rfl⟩

/-! ## Claim C9 -/

/-- C9: the response-cache key hashes only `prompt[:200]`.  For the Ollama
and OpenAI clients alike, after a successful cached call with `p1`, a call
with any `p2` sharing the first 200 characters performs no network request
and returns `p1`'s cached response — the returned text is independent of
the prompt past character 200. -/
theorem cache_key_ignores_prompt_tail :
    (∀ (st : QGState) (m p1 p2 body : PyStr) (out2 : OllamaOutcome),
      st.aiModelsAvailable = true →
      lookupCache st.cache (ollamaCacheKey m p1) = Option.none →
      p1.take 200 = p2.take 200 →
      (callOllamaApi m p2 (callOllamaApi m p1 st (.ok body)).2.1 out2).2.2 = 0 ∧
      (callOllamaApi m p2 (callOllamaApi m p1 st (.ok body)).2.1 out2).1 =
        (callOllamaApi m p1 st (.ok body)).1) ∧
    (∀ (st : QGState) (p1 p2 body : PyStr) (out2 : ApiOutcome),
      st.openaiAvailable = true →
      lookupCache st.cache (openaiCacheKey p1) = Option.none →
      p1.take 200 = p2.take 200 →
      (callOpenaiApi p2 (callOpenaiApi p1 st (.ok body)).2.1 out2).2.2 = 0 ∧
      (callOpenaiApi p2 (callOpenaiApi p1 st (.ok body)).2.1 out2).1 =
        (callOpenaiApi p1 st (.ok body)).1) := by
  constructor
  · intro st m p1 p2 body out2 hai hc hp
    have h1 : callOllamaApi m p1 st (.ok body) =
        (pyStrip body,
         { st with cache := (ollamaCacheKey m p1, pyStrip body) :: st.cache }, 1) := by
      simp [callOllamaApi, hai, hc]
    have hkey : ollamaCacheKey m p2 = ollamaCacheKey m p1 := by
      simp [ollamaCacheKey, hp]
    have h2 : lookupCache ((ollamaCacheKey m p1, pyStrip body) :: st.cache)
        (ollamaCacheKey m p2) = some (pyStrip body) := by
      simp [lookupCache, List.find?, hkey]
    rw [h1]
    simp [callOllamaApi, hai, h2]
  · intro st p1 p2 body out2 hoa hc hp
    have h1 : callOpenaiApi p1 st (.ok body) =
        (pyStrip body,
         { st with cache := (openaiCacheKey p1, pyStrip body) :: st.cache }, 1) := by
      simp [callOpenaiApi, hoa, hc]
    have hkey : openaiCacheKey p2 = openaiCacheKey p1 := by
      simp [openaiCacheKey, hp]
    have h2 : lookupCache ((openaiCacheKey p1, pyStrip body) :: st.cache)
        (openaiCacheKey p2) = some (pyStrip body) := by
      simp [lookupCache, List.find?, hkey]
    rw [h1]
    simp [callOpenaiApi, hoa, h2]

set_option maxRecDepth 4000 in
/-- Witness for C9: two distinct prompts agreeing on their first 200
characters (200 copies of `a`, with and without a trailing `b`). -/
theorem cache_key_tail_witness :
    stAllUp.aiModelsAvailable = true ∧
    lookupCache stAllUp.cache
      (ollamaCacheKey (pstr "m") (List.replicate 200 'a')) = Option.none ∧
    (List.replicate 200 'a').take 200 = (List.replicate 200 'a' ++ ['b']).take 200 ∧
    (callOllamaApi (pstr "m") (List.replicate 200 'a' ++ ['b'])
      (callOllamaApi (pstr "m") (List.replicate 200 'a') stAllUp (.ok (pstr "r"))).2.1
      .timeout).2.2 = 0 :=
  ⟨rfl, rfl, by decide,
    (cache_key_ignores_prompt_tail.1 stAllUp (pstr "m") (List.replicate 200 'a')
      (List.replicate 200 'a' ++ ['b']) (pstr "r") .timeout rfl rfl (by decide)).1⟩

/-! ## Claim C10 -/

/-- C10: every true/false item produced by a deterministic fallback path —
the `true_false` branch of `_generate_fallback_options` and the
parse-failure fallback of `_handle_true_false_with_model_b` — is the
hard-coded item whose `correct_answer` is the boolean constant `True`; no
fallback path can emit `False`. -/
theorem fallback_true_false_answer_is_true :
    (∀ (q r d : PyStr) (pick : List PyStr → PyStr) (terms : List PyStr)
        (shuffle : List PyVal → List PyVal),
      generateFallbackOptions q r (pstr "true_false") d pick terms shuffle =
        tfFallbackItem q d) ∧
    (∀ (q r d : PyStr) (parsed : Option PyVal),
      tfParsedAnswer parsed = Option.none →
      handleTrueFalseWithModelB q r d parsed = tfFallbackItem q d) ∧
    (∀ (q d : PyStr),
      pyGetNone (tfFallbackItem q d) (pstr "correct_answer") = .bool true) := by
  refine ⟨fun q r d pick terms shuffle => rfl, ?_, fun q d => rfl⟩
  intro q r d parsed h
  match parsed with
  | Option.none => rfl
  | some (.str s) => rfl
  | some (.bool b) => rfl
  | some (.int n) => rfl
  | some (.list xs) => rfl
  | some .none => rfl
  | some (.dict fields) =>
    simp only [tfParsedAnswer] at h
    simp [handleTrueFalseWithModelB, h]

/-- Witness for C10 at a concrete unparsable response. -/
theorem fallback_true_false_witness :
    tfParsedAnswer (some (.dict [(pstr "answer", .bool false)])) = Option.none ∧
    handleTrueFalseWithModelB (pstr "Q") (pstr "R") (pstr "medium")
        (some (.dict [(pstr "answer", .bool false)])) =
      tfFallbackItem (pstr "Q") (pstr "medium") :=
  ⟨rfl, fallback_true_false_answer_is_true.2.1 (pstr "Q") (pstr "R") (pstr "medium")
    (some (.dict [(pstr "answer", .bool false)])) rfl⟩

/-! ## Claim C3 -/

/-- The multiple-choice item invariant of the claim: the `options` field is
a list of exactly 4 entries containing the `correct_answer` value. -/
def mcInvariant (item : PyVal) : Prop :=
  ∃ opts, pyGetNone item (pstr "options") = .list opts ∧ opts.length = 4 ∧
    pyGetNone item (pstr "correct_answer") ∈ opts

/-- The padding loop always leaves at least 3 distractors. -/
theorem padDistractors_length (l : List PyStr) : 3 ≤ (padDistractors l).length := by
  unfold padDistractors
  rcases h : l.length with _ | _ | _ | n <;> simp [h]

/-- A parsed OpenAI response with three options and a correct answer not
among them: `_handle_multiple_choice_with_openai` accepts it verbatim. -/
def mcBadParsed : PyVal :=
  .dict [(pstr "question", .str (pstr "Q")),
         (pstr "options", .list [.str (pstr "A"), .str (pstr "B"), .str (pstr "C")]),
         (pstr "correct_answer", .str (pstr "D"))]

/-- C3 counterexample: the OpenAI option path checks only that the keys
`question`, `options`, `correct_answer` exist and returns the parsed dict
verbatim, so it emits a multiple-choice item with 3 options whose
`correct_answer` is not among them — refuting the claim for the OpenAI
path. -/
theorem openai_mc_accepts_invariant_violation :
    handleMultipleChoiceWithOpenai (some mcBadParsed) = mcBadParsed ∧
    pyGetNone mcBadParsed (pstr "options") =
      .list [.str (pstr "A"), .str (pstr "B"), .str (pstr "C")] ∧
    pyGetNone mcBadParsed (pstr "correct_answer") = .str (pstr "D") ∧
    ([PyVal.str (pstr "A"), .str (pstr "B"), .str (pstr "C")].length = 3) ∧
    PyVal.str (pstr "D") ∉ [PyVal.str (pstr "A"), .str (pstr "B"), .str (pstr "C")] := by
  refine ⟨rfl, rfl, rfl, rfl, ?_⟩
  intro h
  simp only [List.mem_cons, List.not_mem_nil, or_false] at h
  rcases h with h | h | h <;>
    (injection h with h2; exact absurd h2 (by decide))

/-- The Ollama multiple-choice handler and the deterministic fallback do
establish the invariant. -/
theorem generateFallbackMultipleChoice_invariant (q r d : PyStr)
    (terms : List PyStr) (shuffle : List PyVal → List PyVal)
    (hs : ∀ l, (shuffle l).Perm l) :
    mcInvariant (generateFallbackMultipleChoice q r d terms shuffle) := by
  refine ⟨_, rfl, ?_, ?_⟩
  · rw [(hs _).length_eq]
    generalize hpd : padDistractors ((terms.take 3).map
      (fun t => pstr "Something related to " ++ t)) = pd
    have h3 : 3 ≤ pd.length := hpd ▸ padDistractors_length _
    simp only [List.length_cons, List.length_map, List.length_take]
    omega
  · exact (hs _).mem_iff.mpr (List.mem_cons_self _ _)

/-- C3 (amended): for every item produced by the Ollama option path
(`_handle_multiple_choice_with_model_b`) or by the deterministic fallback
(`_generate_fallback_multiple_choice`), `correct_answer` appears verbatim
in `options` and `options` has exactly 4 entries; the OpenAI option path
checks only that the three keys are present and may emit items violating
both bounds. -/
theorem mc_invariant_ollama_and_fallback (q r d dresp eresp : PyStr)
    (dp : Option PyVal) (terms : List PyStr)
    (shuffle : List PyVal → List PyVal) (hs : ∀ l, (shuffle l).Perm l) :
    mcInvariant (handleMultipleChoiceWithModelB q r d dresp dp eresp terms shuffle) ∧
    mcInvariant (generateFallbackMultipleChoice q r d terms shuffle) := by
  have hfb := generateFallbackMultipleChoice_invariant q r d terms shuffle hs
  refine ⟨?_, hfb⟩
  by_cases hda : stripQuoteSpace dresp = []
  · simpa [handleMultipleChoiceWithModelB, hda] using hfb
  · rcases dp with _ | v
    · simpa [handleMultipleChoiceWithModelB, hda] using hfb
    · rcases v with s | b | n | xs | fields | _
      case neg.some.list =>
        by_cases hlen : xs.length < 3
        · simpa [handleMultipleChoiceWithModelB, hda, hlen] using hfb
        · refine ⟨shuffle (.str (stripQuoteSpace dresp) :: xs.take 3), ?_, ?_, ?_⟩
          · simp [handleMultipleChoiceWithModelB, hda, hlen]
            rfl
          · rw [(hs _).length_eq]
            simp only [List.length_cons, List.length_take]
            omega
          · have hmem : PyVal.str (stripQuoteSpace dresp) ∈
                shuffle (.str (stripQuoteSpace dresp) :: xs.take 3) :=
              (hs _).mem_iff.mpr (List.mem_cons_self _ _)
            simpa [handleMultipleChoiceWithModelB, hda, hlen] using hmem
      all_goals simpa [handleMultipleChoiceWithModelB, hda] using hfb

/-- Witness for C3's amended theorem with the identity shuffle and a
concrete well-formed distractor response. -/
theorem mc_invariant_witness :
    (∀ l : List PyVal, (id l).Perm l) ∧
    mcInvariant (handleMultipleChoiceWithModelB (pstr "Q") (pstr "R") (pstr "medium")
      (pstr "the answer")
      (some (.list [.str (pstr "d1"), .str (pstr "d2"), .str (pstr "d3")]))
      (pstr "because") [] id) :=
  ⟨fun l => List.Perm.refl l,
   (mc_invariant_ollama_and_fallback (pstr "Q") (pstr "R") (pstr "medium")
     (pstr "the answer") (pstr "because")
     (some (.list [.str (pstr "d1"), .str (pstr "d2"), .str (pstr "d3")]))
     [] id (fun l => List.Perm.refl l)).1⟩

/-! ## Claim C4 -/

/-- C4 counterexample: a backend true/false response whose
`correct_answer` is the STRING `"true"` is not rejected —
`_handle_true_false_with_model_b` only tests key presence and copies the
value verbatim into the emitted item, so the item's `correct_answer` is
not of boolean type and no next backend is tried (the item is returned). -/
theorem modelb_tf_accepts_nonboolean_answer :
    pyGetNone (handleTrueFalseWithModelB (pstr "Q") (pstr "R") (pstr "medium")
        (some (.dict [(pstr "correct_answer", .str (pstr "true"))])))
      (pstr "correct_answer") = .str (pstr "true") ∧
    isBoolVal (.str (pstr "true")) = false ∧
    pyGetNone (handleTrueFalseWithModelB (pstr "Q") (pstr "R") (pstr "medium")
        (some (.dict [(pstr "correct_answer", .str (pstr "true"))])))
      (pstr "question") = .str (pstr "Q") :=
  ⟨rfl, rfl, rfl⟩

/-- C4 (amended): every true/false item emitted by the Ollama path has
`options == [True, False]`; a response that fails to parse to a dict with
a `correct_answer` key yields the deterministic fallback item with answer
`True` (the next backend is NOT tried); a present `correct_answer` of ANY
type is copied verbatim with no boolean check.  The OpenAI path returns
the parsed dict verbatim when the key is present (not even `options` is
enforced) and `{}` — failure, next path tried — when it is absent. -/
theorem tf_items_options_and_verbatim_answer :
    (∀ (q r d : PyStr) (parsed : Option PyVal),
      pyGetNone (handleTrueFalseWithModelB q r d parsed) (pstr "options") =
        .list [.bool true, .bool false]) ∧
    (∀ (q r d : PyStr) (parsed : Option PyVal) (v : PyVal),
      tfParsedAnswer parsed = some v →
      pyGetNone (handleTrueFalseWithModelB q r d parsed) (pstr "correct_answer") = v) ∧
    (∀ (parsed : Option PyVal) (fields : List (PyStr × PyVal)),
      parsed = some (.dict fields) →
      tfParsedAnswer parsed ≠ Option.none →
      handleTrueFalseWithOpenai parsed = .dict fields) ∧
    (∀ (parsed : Option PyVal),
      tfParsedAnswer parsed = Option.none → handleTrueFalseWithOpenai parsed = .dict []) := by
  refine ⟨?_, ?_, ?_, ?_⟩
  · intro q r d parsed
    match parsed with
    | Option.none => rfl
    | some (.str s) => rfl
    | some (.bool b) => rfl
    | some (.int n) => rfl
    | some (.list xs) => rfl
    | some .none => rfl
    | some (.dict fields) =>
      cases h : dGet fields (pstr "correct_answer") <;>
        simp [handleTrueFalseWithModelB, h] <;> rfl
  · intro q r d parsed v hv
    match parsed with
    | some (.dict fields) =>
      simp only [tfParsedAnswer] at hv
      simp [handleTrueFalseWithModelB, hv]
      rfl
  · intro parsed fields hp hv
    subst hp
    simp only [tfParsedAnswer] at hv
    cases h : dGet fields (pstr "correct_answer") with
    | none => exact absurd h hv
    | some v => simp [handleTrueFalseWithOpenai, h]
  · intro parsed hv
    match parsed with
    | Option.none => rfl
    | some (.str s) => rfl
    | some (.bool b) => rfl
    | some (.int n) => rfl
    | some (.list xs) => rfl
    | some .none => rfl
    | some (.dict fields) =>
      simp only [tfParsedAnswer] at hv
      simp [handleTrueFalseWithOpenai, hv]

/-- Witness for C4's amended theorem at concrete parses. -/
theorem tf_items_options_witness :
    tfParsedAnswer (some (.dict [(pstr "correct_answer", .bool false)])) =
      some (.bool false) ∧
    pyGetNone (handleTrueFalseWithModelB (pstr "Q") (pstr "R") (pstr "easy")
        (some (.dict [(pstr "correct_answer", .bool false)])))
      (pstr "correct_answer") = .bool false ∧
    tfParsedAnswer (some (.dict [(pstr "foo", .bool true)])) = Option.none ∧
    handleTrueFalseWithOpenai (some (.dict [(pstr "foo", .bool true)])) = .dict [] :=
  ⟨rfl,
   tf_items_options_and_verbatim_answer.2.1 (pstr "Q") (pstr "R") (pstr "easy")
     (some (.dict [(pstr "correct_answer", .bool false)])) (.bool false) rfl,
   rfl,
   tf_items_options_and_verbatim_answer.2.2.2
     (some (.dict [(pstr "foo", .bool true)])) rfl⟩

/-! ## Claim C5 -/

/-- Stripping only removes characters. -/
theorem pyStrip_length_le (l : PyStr) : (pyStrip l).length ≤ l.length :=
  calc (pyStrip l).length ≤ (pyLStrip l).length :=
        (List.rdropWhile_prefix pyIsSpace (pyLStrip l)).length_le
    _ ≤ l.length := (List.dropWhile_suffix pyIsSpace).length_le

/-- Appending a trailing whitespace character does not change the stripped
string. -/
theorem pyStrip_append_space (l : PyStr) (c : Char) (hc : pyIsSpace c = true) :
    pyStrip (l ++ [c]) = pyStrip l := by
  unfold pyStrip pyLStrip pyRStrip
  rw [List.dropWhile_append]
  by_cases h : (l.dropWhile pyIsSpace).isEmpty
  · have h2 : l.dropWhile pyIsSpace = [] := List.isEmpty_iff.mp h
    simp [h, h2, List.dropWhile_cons, hc]
  · simp only [h, if_false, Bool.false_eq_true]
    exact List.rdropWhile_concat_pos pyIsSpace _ c hc

/-- The space character is whitespace. -/
theorem pyIsSpace_space : pyIsSpace ' ' = true := rfl

/-- The flush step of both chunker loops preserves the chunk bound. -/
theorem chunkFlush_ok (maxCS : Nat) (O : Prop) (chunks : List PyStr) (cur : PyStr)
    (hchunks : ∀ c ∈ chunks, c.length ≤ maxCS ∨ O)
    (hcur : (pyStrip cur).length ≤ maxCS ∨ O) :
    ∀ c ∈ (if cur ≠ [] then chunks ++ [pyStrip cur] else chunks),
      c.length ≤ maxCS ∨ O := by
  split
  · intro c hc
    rcases List.mem_append.mp hc with h | h
    · exact hchunks c h
    · rw [List.mem_singleton.mp h]
      exact hcur
  · exact hchunks

/-- Invariant of the sentence loop: if every stored chunk is within the
budget (or the escape condition `O` holds), the running `temp` strips to
within the budget (or `O`), and every oversized sentence in the input
implies `O`, then the same holds of the loop's outputs. -/
theorem chunkSentenceLoop_invariant (maxCS : Nat) (O : Prop) :
    ∀ (sents chunks : List PyStr) (temp : PyStr),
    (∀ c ∈ chunks, c.length ≤ maxCS ∨ O) →
    ((pyStrip temp).length ≤ maxCS ∨ O) →
    (∀ s ∈ sents, maxCS < s.length → O) →
    (∀ c ∈ (chunkSentenceLoop maxCS sents chunks temp).1, c.length ≤ maxCS ∨ O) ∧
    ((pyStrip (chunkSentenceLoop maxCS sents chunks temp).2).length ≤ maxCS ∨ O) := by
  intro sents
  induction sents with
  | nil => intro chunks temp hchunks htemp _; exact ⟨hchunks, htemp⟩
  | cons s rest ih =>
    intro chunks temp hchunks htemp hsents
    have hrest : ∀ t ∈ rest, maxCS < t.length → O :=
      fun t ht => hsents t (List.mem_cons_of_mem s ht)
    by_cases hov : maxCS < temp.length + s.length
    · have hnew : (pyStrip (([] : PyStr) ++ s ++ [' '])).length ≤ maxCS ∨ O := by
        rcases le_or_lt s.length maxCS with h | h
        · left
          rw [List.nil_append, pyStrip_append_space s ' ' pyIsSpace_space]
          exact le_trans (pyStrip_length_le s) h
        · exact Or.inr (hsents s (List.mem_cons_self s rest) h)
      have := ih (if temp ≠ [] then chunks ++ [pyStrip temp] else chunks)
        (([] : PyStr) ++ s ++ [' '])
        (chunkFlush_ok maxCS O chunks temp hchunks htemp) hnew hrest
      simpa [chunkSentenceLoop, hov] using this
    · have hnew : (pyStrip (temp ++ s ++ [' '])).length ≤ maxCS ∨ O := by
        left
        rw [show temp ++ s ++ [' '] = (temp ++ s) ++ [' '] from by simp,
          pyStrip_append_space (temp ++ s) ' ' pyIsSpace_space]
        calc (pyStrip (temp ++ s)).length ≤ (temp ++ s).length := pyStrip_length_le _
          _ = temp.length + s.length := List.length_append _ _
          _ ≤ maxCS := Nat.not_lt.mp hov
      have := ih chunks (temp ++ s ++ [' ']) hchunks hnew hrest
      simpa [chunkSentenceLoop, hov] using this

/-- Invariant of the paragraph loop, with the escape condition `O` implied
by any oversized sentence of any input paragraph. -/
theorem chunkParagraphLoop_invariant (maxCS : Nat) (O : Prop) :
    ∀ (paras chunks : List PyStr) (current : PyStr),
    (∀ c ∈ chunks, c.length ≤ maxCS ∨ O) →
    ((pyStrip current).length ≤ maxCS ∨ O) →
    (∀ p ∈ paras, ∀ s ∈ reSplitSentences p, maxCS < s.length → O) →
    (∀ c ∈ (chunkParagraphLoop maxCS paras chunks current).1, c.length ≤ maxCS ∨ O) ∧
    ((pyStrip (chunkParagraphLoop maxCS paras chunks current).2).length ≤ maxCS ∨ O) := by
  intro paras
  induction paras with
  | nil => intro chunks current hchunks hcur _; exact ⟨hchunks, hcur⟩
  | cons p rest ih =>
    intro chunks current hchunks hcur hparas
    have hrest : ∀ q ∈ rest, ∀ s ∈ reSplitSentences q, maxCS < s.length → O :=
      fun q hq => hparas q (List.mem_cons_of_mem p hq)
    by_cases hov : maxCS < current.length + p.length
    · have hflush := chunkFlush_ok maxCS O chunks current hchunks hcur
      by_cases hbig : maxCS < p.length
      · have hsl := chunkSentenceLoop_invariant maxCS O (reSplitSentences p)
          (if current ≠ [] then chunks ++ [pyStrip current] else chunks) []
          hflush (Or.inl (by simp [pyStrip, pyLStrip, pyRStrip, List.rdropWhile]))
          (fun s hs h => hparas p (List.mem_cons_self p rest) s hs h)
        have := ih (chunkSentenceLoop maxCS (reSplitSentences p)
            (if current ≠ [] then chunks ++ [pyStrip current] else chunks) []).1
          (chunkSentenceLoop maxCS (reSplitSentences p)
            (if current ≠ [] then chunks ++ [pyStrip current] else chunks) []).2
          hsl.1 hsl.2 hrest
        simpa [chunkParagraphLoop, hov, hbig] using this
      · have hp2 : (pyStrip p).length ≤ maxCS ∨ O :=
          Or.inl (le_trans (pyStrip_length_le p) (Nat.not_lt.mp hbig))
        have := ih (if current ≠ [] then chunks ++ [pyStrip current] else chunks) p
          hflush hp2 hrest
        simpa [chunkParagraphLoop, hov, hbig] using this
    · have hnew : (pyStrip (current ++ p ++ ['\n', '\n'])).length ≤ maxCS ∨ O := by
        left
        rw [show current ++ p ++ ['\n', '\n'] = ((current ++ p) ++ ['\n']) ++ ['\n'] from
              by simp,
          pyStrip_append_space _ '\n' rfl, pyStrip_append_space _ '\n' rfl]
        calc (pyStrip (current ++ p)).length ≤ (current ++ p).length := pyStrip_length_le _
          _ = current.length + p.length := List.length_append _ _
          _ ≤ maxCS := Nat.not_lt.mp hov
      have := ih chunks (current ++ p ++ ['\n', '\n']) hchunks hnew hrest
      simpa [chunkParagraphLoop, hov] using this

/-- C5 counterexample: with budget 10, the input
`"aa bb cc dd ee ff\n\nxx"` has no word longer than 10 characters, yet the
chunker emits the 17-character chunk `"aa bb cc dd ee ff"` — an oversized
paragraph whose single sentence has no sentence boundary is NOT split
further on word windows (no such code exists in
`_chunk_content_intelligently`), refuting the claim's "unless a single
word exceeds N". -/
theorem chunker_oversize_without_long_word :
    (∀ w ∈ pySplitWs (pstr "aa bb cc dd ee ff\n\nxx"), w.length ≤ 10) ∧
    (pstr "aa bb cc dd ee ff") ∈
      chunkContentIntelligently (pstr "aa bb cc dd ee ff\n\nxx") 10 ∧
    10 < (pstr "aa bb cc dd ee ff").length := by
  refine ⟨by decide, by decide, by decide⟩

/-- C5 (amended): every chunk returned by the chunker has length at most
`N` unless a single SENTENCE (a piece of the `re.split(r'(?<=[.!?])\s+')`
sentence split of some paragraph) exceeds `N`: a paragraph longer than `N`
is split on sentence boundaries, but there is no word-window last resort,
so an oversized sentence is emitted as an oversized chunk. -/
theorem chunker_bounded_unless_long_sentence (content : PyStr) (maxCS : Nat)
    (c : PyStr) (hc : c ∈ chunkContentIntelligently content maxCS) :
    c.length ≤ maxCS ∨
      ∃ p ∈ splitParagraphs content, ∃ s ∈ reSplitSentences p, maxCS < s.length := by
  unfold chunkContentIntelligently at hc
  by_cases hlen : content.length ≤ maxCS
  · rw [if_pos hlen] at hc
    rw [List.mem_singleton.mp hc]
    exact Or.inl hlen
  · rw [if_neg hlen] at hc
    have hmain := chunkParagraphLoop_invariant maxCS
      (∃ p ∈ splitParagraphs content, ∃ s ∈ reSplitSentences p, maxCS < s.length)
      (splitParagraphs content) [] []
      (by intro c hc2; cases hc2)
      (Or.inl (by simp [pyStrip, pyLStrip, pyRStrip, List.rdropWhile]))
      (fun p hp s hs h => ⟨p, hp, s, hs, h⟩)
    have hcm := (List.mem_filter.mp hc).1
    exact chunkFlush_ok maxCS _
      (chunkParagraphLoop maxCS (splitParagraphs content) [] []).1
      (chunkParagraphLoop maxCS (splitParagraphs content) [] []).2
      hmain.1 hmain.2 c hcm

/-- Witness for C5's amended theorem: a small input whose single chunk is
within the budget. -/
theorem chunker_bounded_witness :
    (pstr "hello") ∈ chunkContentIntelligently (pstr "hello") 10 ∧
    ((pstr "hello").length ≤ 10 ∨
      ∃ p ∈ splitParagraphs (pstr "hello"), ∃ s ∈ reSplitSentences p,
        10 < s.length) :=
  ⟨by decide,
   chunker_bounded_unless_long_sentence (pstr "hello") 10 (pstr "hello") (by decide)⟩

end EduQuest
